import Mathlib

/-!
Shallow embedding of the speed-normalization widget in
`src/components/vrti/AutoWalkCalculator.tsx`.

The widget's numeric core is pure arithmetic over JavaScript numbers; we
model the numbers as rationals (every constant in the source is a short
decimal) and each handler or derived value as a Lean function carrying the
same name as the source symbol.
-/

namespace AutoWalkCalculator

/-- `const MAX_SPEED = 10.0` -/
def MAX_SPEED : ℚ := 10

/-- `const ANIMATION_SPEED = 0.01` -/
def ANIMATION_SPEED : ℚ := 1 / 100

/-- `const MIN_FINAL_SPEED = 0.1` -/
def MIN_FINAL_SPEED : ℚ := 1 / 10

/-- `const TEMP_OFFSET_AMOUNT = 0.25` -/
def TEMP_OFFSET_AMOUNT : ℚ := 1 / 4

/-- `const MULTIPLIER_SNAP_THRESHOLD = 0.08` -/
def MULTIPLIER_SNAP_THRESHOLD : ℚ := 2 / 25

/-- `const presets = [0.25, 0.5, 0.75, 1.0]` -/
def presets : List ℚ := [1/4, 1/2, 3/4, 1]

/-- `const override = overrideIndex >= 0 ? presets[overrideIndex] : null` -/
def overrideValue (overrideIndex : ℤ) : Option ℚ :=
  if 0 ≤ overrideIndex then presets.get? overrideIndex.toNat else none

/-- `const baseSpeed = Math.min(currentSpeed / MAX_SPEED, 1)` -/
def baseSpeed (currentSpeed : ℚ) : ℚ :=
  min (currentSpeed / MAX_SPEED) 1

/-- ```
const postMultiplierSpeed =
  override !== null
    ? targetSpeed >= 0.0 ? override : Math.min(baseSpeed, override)
    : baseSpeed * multiplier
``` -/
def postMultiplierSpeed (currentSpeed targetSpeed multiplier : ℚ)
    (overrideIndex : ℤ) : ℚ :=
  match overrideValue overrideIndex with
  | some ov => if 0 ≤ targetSpeed then ov else min (baseSpeed currentSpeed) ov
  | none => baseSpeed currentSpeed * multiplier

/-- ```
const effectiveOffset =
  tempOffset < 0
    ? postMultiplierSpeed >= MIN_FINAL_SPEED
      ? Math.max(tempOffset, MIN_FINAL_SPEED - postMultiplierSpeed)
      : 0.0
    : tempOffset
``` -/
def effectiveOffset (tempOffset postMultiplier : ℚ) : ℚ :=
  if tempOffset < 0 then
    if MIN_FINAL_SPEED ≤ postMultiplier then
      max tempOffset (MIN_FINAL_SPEED - postMultiplier)
    else 0
  else tempOffset

/-- `const finalSpeed = Math.max(0, Math.min(1, postMultiplierSpeed + effectiveOffset))` -/
def finalSpeed (currentSpeed targetSpeed multiplier : ℚ)
    (overrideIndex : ℤ) (tempOffset : ℚ) : ℚ :=
  max 0 (min 1
    (postMultiplierSpeed currentSpeed targetSpeed multiplier overrideIndex
      + effectiveOffset tempOffset
          (postMultiplierSpeed currentSpeed targetSpeed multiplier overrideIndex)))

/-- `setOverrideIndex((prev) => (prev >= 3 ? -1 : prev + 1))` -/
def handleOverrideClick (prev : ℤ) : ℤ :=
  if 3 ≤ prev then -1 else prev + 1

/-- ```
if (Math.abs(v - 1.0) < MULTIPLIER_SNAP_THRESHOLD) { setMultiplier(1.0) }
else { setMultiplier(v) }
``` -/
def handleMultiplierChange (v : ℚ) : ℚ :=
  if |v - 1| < MULTIPLIER_SNAP_THRESHOLD then 1 else v

/-- One tick of the smoothing animation:
```
const diff = targetSpeed - prev;
if (Math.abs(diff) < 0.05) return targetSpeed;
return prev + diff * ANIMATION_SPEED;
``` -/
def animate (targetSpeed prev : ℚ) : ℚ :=
  if |targetSpeed - prev| < 5 / 100 then targetSpeed
  else prev + (targetSpeed - prev) * ANIMATION_SPEED

/-- `n` consecutive smoothing ticks with a fixed target speed. -/
def iterateAnimate (targetSpeed : ℚ) : ℕ → ℚ → ℚ
  | 0, c => c
  | n + 1, c => animate targetSpeed (iterateAnimate targetSpeed n c)

/-- The spec's `clamp(x, lo, hi)` helper, as the source computes it with
`Math.max(lo, Math.min(hi, x))`. -/
def clamp (x lo hi : ℚ) : ℚ := max lo (min hi x)

/-- `n`-fold application of the override toggle. -/
def iterateOverrideClick : ℕ → ℤ → ℤ
  | 0, i => i
  | n + 1, i => handleOverrideClick (iterateOverrideClick n i)

end AutoWalkCalculator

namespace AutoWalkCalculator

/-- **C1.** For every evaluation of the composition engine: a negative
temp offset against a post-multiplier speed at or above the 0.1 floor is
attenuated to `max(tempOffset, 0.1 - postMultiplier)`; a negative offset
against a sub-floor post-multiplier speed becomes `0`; a nonnegative
offset passes through unchanged; and the final speed is the clamp of
`postMultiplier + effectiveOffset` to `[0, 1]`. -/
theorem c1_effective_offset_policy
    (currentSpeed targetSpeed multiplier : ℚ) (overrideIndex : ℤ)
    (tempOffset : ℚ) :
    (tempOffset < 0 →
      MIN_FINAL_SPEED ≤ postMultiplierSpeed currentSpeed targetSpeed multiplier overrideIndex →
      effectiveOffset tempOffset
          (postMultiplierSpeed currentSpeed targetSpeed multiplier overrideIndex)
        = max tempOffset
            (MIN_FINAL_SPEED
              - postMultiplierSpeed currentSpeed targetSpeed multiplier overrideIndex)) ∧
    (tempOffset < 0 →
      postMultiplierSpeed currentSpeed targetSpeed multiplier overrideIndex < MIN_FINAL_SPEED →
      effectiveOffset tempOffset
          (postMultiplierSpeed currentSpeed targetSpeed multiplier overrideIndex) = 0) ∧
    (0 ≤ tempOffset →
      effectiveOffset tempOffset
          (postMultiplierSpeed currentSpeed targetSpeed multiplier overrideIndex)
        = tempOffset) ∧
    finalSpeed currentSpeed targetSpeed multiplier overrideIndex tempOffset
      = clamp
          (postMultiplierSpeed currentSpeed targetSpeed multiplier overrideIndex
            + effectiveOffset tempOffset
                (postMultiplierSpeed currentSpeed targetSpeed multiplier overrideIndex))
          0 1 := by
  refine ⟨?_, ?_, ?_, ?_⟩
  · intro hneg hge
    simp [effectiveOffset, hneg, hge]
  · intro hneg hlt
    simp [effectiveOffset, hneg, not_le.mpr hlt]
  · intro hpos
    simp [effectiveOffset, not_lt.mpr hpos]
  · rfl

/-- Witness for C1 at a concrete evaluation. -/
theorem c1_effective_offset_policy_witness :
    effectiveOffset (-(1/4)) (postMultiplierSpeed (3/2) 5 1 (-1)) = -(1/20) := by
  have h := (c1_effective_offset_policy (3/2) 5 1 (-1) (-(1/4))).1
    (by norm_num)
    (by norm_num [postMultiplierSpeed, overrideValue, baseSpeed, MAX_SPEED, MIN_FINAL_SPEED])
  rw [h]
  norm_num [postMultiplierSpeed, overrideValue, baseSpeed, MAX_SPEED, MIN_FINAL_SPEED]

/-- **C2.** For every valid input (speeds in `[0, MAX_SPEED]`, multiplier in
`[0, 2]`, override index in `{-1,0,1,2,3}`, temp offset in
`{-0.25, 0, 0.25}`): whenever the post-multiplier speed is at least the
0.1 floor, the final speed is at least 0.1; in particular with override
off, multiplier 1, base 0.15 and temp offset -0.25 the result is exactly
0.10. -/
theorem c2_floor_protection
    (currentSpeed targetSpeed multiplier : ℚ) (overrideIndex : ℤ)
    (tempOffset : ℚ)
    (hcs0 : 0 ≤ currentSpeed) (hcs1 : currentSpeed ≤ MAX_SPEED)
    (hts0 : 0 ≤ targetSpeed) (hts1 : targetSpeed ≤ MAX_SPEED)
    (hm0 : 0 ≤ multiplier) (hm1 : multiplier ≤ 2)
    (hoi : overrideIndex = -1 ∨ overrideIndex = 0 ∨ overrideIndex = 1 ∨
      overrideIndex = 2 ∨ overrideIndex = 3)
    (hto : tempOffset = -TEMP_OFFSET_AMOUNT ∨ tempOffset = 0 ∨
      tempOffset = TEMP_OFFSET_AMOUNT)
    (hfloor : MIN_FINAL_SPEED ≤
      postMultiplierSpeed currentSpeed targetSpeed multiplier overrideIndex) :
    MIN_FINAL_SPEED ≤
      finalSpeed currentSpeed targetSpeed multiplier overrideIndex tempOffset ∧
    finalSpeed (3/2) 5 1 (-1) (-TEMP_OFFSET_AMOUNT) = MIN_FINAL_SPEED := by
  constructor
  · set post := postMultiplierSpeed currentSpeed targetSpeed multiplier overrideIndex with hpost
    have hsum : MIN_FINAL_SPEED ≤ post + effectiveOffset tempOffset post := by
      rcases lt_or_le tempOffset 0 with hneg | hpos
      · have heff : effectiveOffset tempOffset post
            = max tempOffset (MIN_FINAL_SPEED - post) := by
          simp [effectiveOffset, hneg, hfloor]
        rw [heff]
        have : MIN_FINAL_SPEED - post ≤ max tempOffset (MIN_FINAL_SPEED - post) :=
          le_max_right _ _
        linarith
      · have heff : effectiveOffset tempOffset post = tempOffset := by
          simp [effectiveOffset, not_lt.mpr hpos]
        rw [heff]
        linarith
    have hmin : MIN_FINAL_SPEED ≤ min 1 (post + effectiveOffset tempOffset post) := by
      refine le_min ?_ hsum
      norm_num [MIN_FINAL_SPEED]
    calc MIN_FINAL_SPEED ≤ min 1 (post + effectiveOffset tempOffset post) := hmin
      _ ≤ max 0 (min 1 (post + effectiveOffset tempOffset post)) := le_max_right _ _
  · norm_num [finalSpeed, postMultiplierSpeed, overrideValue, baseSpeed,
      effectiveOffset, MAX_SPEED, MIN_FINAL_SPEED, TEMP_OFFSET_AMOUNT]

/-- Witness for C2: at the boundary example the floor holds with equality. -/
theorem c2_floor_protection_witness :
    MIN_FINAL_SPEED ≤ finalSpeed (3/2) 5 1 (-1) (-TEMP_OFFSET_AMOUNT) ∧
    finalSpeed (3/2) 5 1 (-1) (-TEMP_OFFSET_AMOUNT) = MIN_FINAL_SPEED :=
  c2_floor_protection (3/2) 5 1 (-1) (-TEMP_OFFSET_AMOUNT)
    (by norm_num) (by norm_num [MAX_SPEED]) (by norm_num)
    (by norm_num [MAX_SPEED]) (by norm_num) (by norm_num)
    (Or.inl rfl) (Or.inl rfl)
    (by norm_num [postMultiplierSpeed, overrideValue, baseSpeed, MAX_SPEED,
      MIN_FINAL_SPEED])

/-- **C3 counterexample.** Applying the override toggle four times from
`-1` yields `3`, not `-1` (the cycle has five states, so four clicks do
not return to "off"). -/
theorem c3_counterexample :
    iterateOverrideClick 4 (-1) = 3 ∧ (3 : ℤ) ≠ -1 := by
  constructor
  · norm_num [iterateOverrideClick, handleOverrideClick]
  · decide

/-- **C3 (amended).** Applying the override toggle five times from `-1`
returns to `-1` (four applications reach `3`); a single application maps
each state `i` in `{0, 1, 2}` to `i + 1`, and maps state `3` to `-1`. -/
theorem c3_override_cycle :
    iterateOverrideClick 5 (-1) = -1 ∧
    iterateOverrideClick 4 (-1) = 3 ∧
    handleOverrideClick 0 = 1 ∧
    handleOverrideClick 1 = 2 ∧
    handleOverrideClick 2 = 3 ∧
    handleOverrideClick 3 = -1 := by
  refine ⟨?_, ?_, ?_, ?_, ?_, ?_⟩ <;>
    norm_num [iterateOverrideClick, handleOverrideClick]

/-- **C4 counterexample.** The proposed value `0.92` lies in the closed
interval `[0.92, 1.08]` but is stored unchanged, not coerced to `1.0`:
the source compares with a strict `<` against the 0.08 threshold. -/
theorem c4_counterexample :
    handleMultiplierChange (92/100) = 92/100 ∧ (92/100 : ℚ) ≠ 1 := by
  constructor
  · norm_num [handleMultiplierChange, MULTIPLIER_SNAP_THRESHOLD, abs]
  · norm_num

/-- **C4 (amended).** The multiplier edit handler stores every proposed
value `v` in the open interval `(0.92, 1.08)` as exactly `1.0` (any value
strictly within 0.08 of 1.0 is coerced); the endpoints `0.92` and `1.08`,
and the values `0.91` and `1.09`, are stored unchanged. -/
theorem c4_multiplier_snap (v : ℚ) (h0 : 92/100 < v) (h1 : v < 108/100) :
    handleMultiplierChange v = 1 ∧
    handleMultiplierChange (92/100) = 92/100 ∧
    handleMultiplierChange (108/100) = 108/100 ∧
    handleMultiplierChange (91/100) = 91/100 ∧
    handleMultiplierChange (109/100) = 109/100 := by
  refine ⟨?_, ?_, ?_, ?_, ?_⟩
  · have habs : |v - 1| < MULTIPLIER_SNAP_THRESHOLD := by
      rw [abs_lt, MULTIPLIER_SNAP_THRESHOLD]
      constructor <;> linarith
    simp [handleMultiplierChange, habs]
  all_goals norm_num [handleMultiplierChange, MULTIPLIER_SNAP_THRESHOLD, abs]

/-- Witness for C4 (amended) at `v = 1.05`. -/
theorem c4_multiplier_snap_witness :
    handleMultiplierChange (105/100) = 1 :=
  (c4_multiplier_snap (105/100) (by norm_num) (by norm_num)).1

/-- **C5.** With override index `2` (preset `0.75`) and a target speed in
the valid domain, the final speed is `clamp(0.75 + effectiveOffset, 0, 1)`
for every current speed in `[0, MAX_SPEED]` and every multiplier in
`[0, 2]`, and it does not depend on the multiplier. -/
theorem c5_override_pin
    (currentSpeed targetSpeed multiplier multiplier' tempOffset : ℚ)
    (hts0 : 0 ≤ targetSpeed) (hts1 : targetSpeed ≤ MAX_SPEED)
    (hcs0 : 0 ≤ currentSpeed) (hcs1 : currentSpeed ≤ MAX_SPEED)
    (hm0 : 0 ≤ multiplier) (hm1 : multiplier ≤ 2)
    (hm0' : 0 ≤ multiplier') (hm1' : multiplier' ≤ 2) :
    finalSpeed currentSpeed targetSpeed multiplier 2 tempOffset
      = clamp (3/4 + effectiveOffset tempOffset (3/4)) 0 1 ∧
    finalSpeed currentSpeed targetSpeed multiplier 2 tempOffset
      = finalSpeed currentSpeed targetSpeed multiplier' 2 tempOffset := by
  have hpost : ∀ m : ℚ,
      postMultiplierSpeed currentSpeed targetSpeed m 2 = 3/4 := by
    intro m
    simp [postMultiplierSpeed, overrideValue, presets, hts0]
  constructor
  · rw [finalSpeed, hpost, clamp]
  · rw [finalSpeed, finalSpeed, hpost, hpost]

/-- Witness for C5 at current speed `5`, target `5`, multipliers `1` and
`2`, temp offset `0`. -/
theorem c5_override_pin_witness :
    finalSpeed 5 5 1 2 0 = clamp (3/4 + effectiveOffset 0 (3/4)) 0 1 ∧
    finalSpeed 5 5 1 2 0 = finalSpeed 5 5 2 2 0 :=
  c5_override_pin 5 5 1 2 0 (by norm_num) (by norm_num [MAX_SPEED])
    (by norm_num) (by norm_num [MAX_SPEED]) (by norm_num) (by norm_num)
    (by norm_num) (by norm_num)

/-- **C6.** A smoothing tick snaps to the target when the gap is below
`0.05`, and otherwise moves 1% of the gap toward the target. -/
theorem c6_smoothing_tick (targetSpeed prev : ℚ) :
    (|targetSpeed - prev| < 5/100 → animate targetSpeed prev = targetSpeed) ∧
    (¬ |targetSpeed - prev| < 5/100 →
      animate targetSpeed prev = prev + (targetSpeed - prev) * (1/100)) := by
  constructor
  · intro h
    simp [animate, h]
  · intro h
    simp [animate, h, ANIMATION_SPEED]

/-- Witness for C6: a tick from `0` toward `5` moves to `0.05`, and a tick
from `4.96` toward `5` snaps to `5`. -/
theorem c6_smoothing_tick_witness :
    animate 5 0 = 5/100 ∧ animate 5 (496/100) = 5 := by
  constructor
  · have h := (c6_smoothing_tick 5 0).2 (by norm_num [abs])
    rw [h]
    norm_num
  · exact (c6_smoothing_tick 5 (496/100)).1 (by rw [abs_lt]; norm_num)

/-- **C7.** Every smoothing tick lands on the closed segment between the
previous current speed and the target speed: the result is between them,
and is an affine combination `prev + lam * (target - prev)` with
`lam` in `[0, 1]`. -/
theorem c7_no_overshoot (targetSpeed prev : ℚ) :
    min prev targetSpeed ≤ animate targetSpeed prev ∧
    animate targetSpeed prev ≤ max prev targetSpeed ∧
    ∃ lam : ℚ, 0 ≤ lam ∧ lam ≤ 1 ∧
      animate targetSpeed prev = prev + lam * (targetSpeed - prev) := by
  rw [animate, ANIMATION_SPEED]
  split
  · exact ⟨min_le_right _ _, le_max_right _ _, 1, by norm_num, by norm_num, by ring⟩
  · refine ⟨?_, ?_, 1/100, by norm_num, by norm_num, by ring⟩
    · rcases le_total prev targetSpeed with hle | hle
      · rw [min_eq_left hle]
        linarith
      · rw [min_eq_right hle]
        linarith
    · rcases le_total prev targetSpeed with hle | hle
      · rw [max_eq_right hle]
        linarith
      · rw [max_eq_left hle]
        linarith

/-- One tick shrinks the distance to the target by at least a factor of
`0.99` (snapping takes it to zero). -/
theorem animate_dist_le (targetSpeed prev : ℚ) :
    |targetSpeed - animate targetSpeed prev|
      ≤ (99/100) * |targetSpeed - prev| := by
  rw [animate, ANIMATION_SPEED]
  split
  · rw [sub_self, abs_zero]
    positivity
  · have hrw : targetSpeed - (prev + (targetSpeed - prev) * (1/100))
        = (99/100) * (targetSpeed - prev) := by ring
    rw [hrw, abs_mul, abs_of_nonneg (by norm_num : (0:ℚ) ≤ 99/100)]

/-- After `n` ticks the distance to the target is at most
`0.99 ^ n` times the initial distance. -/
theorem iterateAnimate_dist_le (targetSpeed : ℚ) (n : ℕ) (c : ℚ) :
    |targetSpeed - iterateAnimate targetSpeed n c|
      ≤ (99/100) ^ n * |targetSpeed - c| := by
  induction n with
  | zero => simp [iterateAnimate]
  | succ n ih =>
    calc |targetSpeed - iterateAnimate targetSpeed (n + 1) c|
        = |targetSpeed - animate targetSpeed (iterateAnimate targetSpeed n c)| := rfl
      _ ≤ (99/100) * |targetSpeed - iterateAnimate targetSpeed n c| :=
          animate_dist_le _ _
      _ ≤ (99/100) * ((99/100) ^ n * |targetSpeed - c|) := by
          exact mul_le_mul_of_nonneg_left ih (by norm_num)
      _ = (99/100) ^ (n + 1) * |targetSpeed - c| := by ring

/-- **C8.** From any valid starting speed, repeatedly ticking with a fixed
target speed reaches the target exactly after finitely many ticks. -/
theorem c8_convergence (currentSpeed targetSpeed : ℚ)
    (hcs0 : 0 ≤ currentSpeed) (hcs1 : currentSpeed ≤ MAX_SPEED)
    (hts0 : 0 ≤ targetSpeed) (hts1 : targetSpeed ≤ MAX_SPEED) :
    ∃ n : ℕ, iterateAnimate targetSpeed n currentSpeed = targetSpeed := by
  set D := |targetSpeed - currentSpeed| with hD
  have hD0 : 0 ≤ D := abs_nonneg _
  obtain ⟨n, hn⟩ :=
    exists_pow_lt_of_lt_one
      (show (0:ℚ) < (5/100) / (D + 1) by positivity)
      (show (99/100 : ℚ) < 1 by norm_num)
  have hclose : |targetSpeed - iterateAnimate targetSpeed n currentSpeed| < 5/100 := by
    have h1 := iterateAnimate_dist_le targetSpeed n currentSpeed
    have h2 : (99/100 : ℚ) ^ n * D ≤ (5/100) / (D + 1) * D :=
      mul_le_mul_of_nonneg_right (le_of_lt hn) hD0
    have h3 : (5/100 : ℚ) / (D + 1) * D < 5/100 := by
      rw [div_mul_eq_mul_div, div_lt_iff₀ (by positivity)]
      linarith
    calc |targetSpeed - iterateAnimate targetSpeed n currentSpeed|
        ≤ (99/100) ^ n * D := h1
      _ ≤ (5/100) / (D + 1) * D := h2
      _ < 5/100 := h3
  refine ⟨n + 1, ?_⟩
  show animate targetSpeed (iterateAnimate targetSpeed n currentSpeed) = targetSpeed
  simp [animate, hclose]

/-- Witness for C8: starting at `0` with target `10`, some finite number
of ticks reaches `10` exactly. -/
theorem c8_convergence_witness :
    ∃ n : ℕ, iterateAnimate 10 n 0 = 10 :=
  c8_convergence 0 10 (by norm_num) (by norm_num [MAX_SPEED])
    (by norm_num) (by norm_num [MAX_SPEED])

/-- **C9.** For every current speed in `[0, MAX_SPEED]`, the base speed
equals `clamp(currentSpeed / MAX_SPEED, 0, 1)` and lies in `[0, 1]`. -/
theorem c9_base_speed (currentSpeed : ℚ)
    (h0 : 0 ≤ currentSpeed) (h1 : currentSpeed ≤ MAX_SPEED) :
    baseSpeed currentSpeed = clamp (currentSpeed / MAX_SPEED) 0 1 ∧
    0 ≤ baseSpeed currentSpeed ∧ baseSpeed currentSpeed ≤ 1 := by
  have hq : 0 ≤ currentSpeed / MAX_SPEED :=
    div_nonneg h0 (by norm_num [MAX_SPEED])
  refine ⟨?_, ?_, ?_⟩
  · rw [clamp, baseSpeed, min_comm, max_eq_right (le_min (by norm_num) hq)]
  · exact le_min hq (by norm_num)
  · exact min_le_right _ _

/-- Witness for C9 at current speed `5`. -/
theorem c9_base_speed_witness :
    baseSpeed 5 = clamp (5 / MAX_SPEED) 0 1 ∧
    0 ≤ baseSpeed 5 ∧ baseSpeed 5 ≤ 1 :=
  c9_base_speed 5 (by norm_num) (by norm_num [MAX_SPEED])

/-- A negative temp offset never yields a positive effective offset. -/
theorem effectiveOffset_nonpos {tempOffset : ℚ} (post : ℚ)
    (ht : tempOffset < 0) : effectiveOffset tempOffset post ≤ 0 := by
  rw [effectiveOffset, if_pos ht]
  split
  · exact max_le (le_of_lt ht) (by linarith [sub_nonpos.mpr (by assumption : MIN_FINAL_SPEED ≤ post)])
  · exact le_refl 0

/-- **C10.** For every valid input state, the final speed with temp offset
`-0.25` is at most the final speed with temp offset `0`; and whenever the
temp offset is negative the computed effective offset is never positive,
so holding "Slow Down" can never increase the output. -/
theorem c10_slow_down_never_increases
    (currentSpeed targetSpeed multiplier : ℚ) (overrideIndex : ℤ)
    (hcs0 : 0 ≤ currentSpeed) (hcs1 : currentSpeed ≤ MAX_SPEED)
    (hts0 : 0 ≤ targetSpeed) (hts1 : targetSpeed ≤ MAX_SPEED)
    (hm0 : 0 ≤ multiplier) (hm1 : multiplier ≤ 2)
    (hoi : overrideIndex = -1 ∨ overrideIndex = 0 ∨ overrideIndex = 1 ∨
      overrideIndex = 2 ∨ overrideIndex = 3) :
    finalSpeed currentSpeed targetSpeed multiplier overrideIndex
        (-TEMP_OFFSET_AMOUNT)
      ≤ finalSpeed currentSpeed targetSpeed multiplier overrideIndex 0 ∧
    ∀ tempOffset : ℚ, tempOffset < 0 →
      effectiveOffset tempOffset
          (postMultiplierSpeed currentSpeed targetSpeed multiplier overrideIndex)
        ≤ 0 := by
  constructor
  · set post := postMultiplierSpeed currentSpeed targetSpeed multiplier overrideIndex
    have hneg : effectiveOffset (-TEMP_OFFSET_AMOUNT) post ≤ 0 :=
      effectiveOffset_nonpos post (by norm_num [TEMP_OFFSET_AMOUNT])
    have hzero : effectiveOffset 0 post = 0 := by
      rw [effectiveOffset, if_neg (lt_irrefl 0)]
    rw [finalSpeed, finalSpeed, hzero]
    exact max_le_max le_rfl (min_le_min le_rfl (by linarith))
  · intro tempOffset ht
    exact effectiveOffset_nonpos _ ht

/-- Witness for C10 at current speed `5`, target `5`, multiplier `1`,
override off. -/
theorem c10_slow_down_never_increases_witness :
    finalSpeed 5 5 1 (-1) (-TEMP_OFFSET_AMOUNT) ≤ finalSpeed 5 5 1 (-1) 0 ∧
    effectiveOffset (-(1/8)) (postMultiplierSpeed 5 5 1 (-1)) ≤ 0 := by
  have h := c10_slow_down_never_increases 5 5 1 (-1)
    (by norm_num) (by norm_num [MAX_SPEED]) (by norm_num)
    (by norm_num [MAX_SPEED]) (by norm_num) (by norm_num) (Or.inl rfl)
  exact ⟨h.1, h.2 (-(1/8)) (by norm_num)⟩

end AutoWalkCalculator
